import Mathlib

/-!
# LedgrAPI — shallow embedding of the metered call-proxy path

This file embeds the data model (`app/db/models/{api,user,usage}.py`) and the
`call_api` handler (`app/api/v1/endpoints/apis.py`, lines 131-278) of the
LedgrAPI repository, and settles the frozen claims about the free/paid cost
decision, the precondition order, the usage-ledger invariants, the tier
policy, the auth-header injection, and the transactional behaviour of the
error exits.

Modelling conventions:
* Python `int` is modelled as `Int` (counters in `APIUsage` are `BigInteger`
  columns starting at 0; `free_calls_per_month` is an `Integer` column).
* `price_per_call`, `cost`, `cost_this_month`, `cost_total` are `Float`
  columns holding whole USD cents; every value the claims exercise is an
  integer for which Python float arithmetic is exact, so they are modelled
  as `Int`.
* String-typed discriminators (`auth_type`, `status`, `current_tier`) stay
  `String`, as in the source.
* The external effects of one invocation (the upstream HTTP outcome, the
  generated `uuid4` request id, the measured wall-clock latency) enter the
  model as explicit parameters.
* The SQLAlchemy session of one request is embedded transactionally: the
  handler computes the ledger state it would commit; every `raise
  HTTPException` path leaves the persistent ledger untouched because no
  `commit` was issued and `get_db` (`app/db/session.py`, lines 32-42) rolls
  the session back on exception.
-/

namespace LedgrAPI

/-- The `auth_config` JSON dict of an API (`app/db/models/api.py`, line 29): only
the keys `header_name` and `api_key` are read by the handler
(`apis.py`, line 198); both may be absent.  A `none` value of the surrounding
`Option AuthConfig` covers both a NULL and an empty (hence falsy) dict, which
the handler treats identically at line 197. -/
structure AuthConfig where
  headerName : Option String
  apiKey : Option String
  deriving DecidableEq, Repr

/-- The `API` ORM model (`app/db/models/api.py`, lines 12-68), restricted to the
columns the call path reads. -/
structure API where
  id : Int
  ownerId : Int
  baseUrl : String
  authType : String
  authConfig : Option AuthConfig
  pricingModel : String
  pricePerCall : Int
  freeCallsPerMonth : Int
  isActive : Bool
  isPublic : Bool
  status : String
  deriving DecidableEq, Repr

/-- The `User` ORM model (`app/db/models/user.py`, lines 12-79), restricted to
the fields the call and publish paths read.  `numApis` stands for
`len(self.apis)` read by `can_publish_apis`. -/
structure User where
  id : Int
  currentTier : String
  numApis : Nat
  deriving DecidableEq, Repr

/-- Property `User.is_premium` (`user.py`, lines 54-57): membership of the tier in
`["builder", "pro", "enterprise"]`. -/
def User.isPremium (u : User) : Bool :=
  u.currentTier == "builder" || u.currentTier == "pro" || u.currentTier == "enterprise"

/-- Property `User.can_publish_apis` (`user.py`, lines 59-69): tier-dependent bound on
`len(self.apis)`; any tier other than `free`/`builder`/`pro` falls into the
unconditional `else` branch. -/
def User.canPublishApis (u : User) : Bool :=
  if u.currentTier == "free" then u.numApis < 1
  else if u.currentTier == "builder" then u.numApis < 3
  else if u.currentTier == "pro" then u.numApis < 10
  else true

/-- Method `User.get_rate_limit` (`user.py`, lines 71-79): dict lookup with default
60. -/
def User.getRateLimit (u : User) : Int :=
  if u.currentTier == "free" then 60
  else if u.currentTier == "builder" then 300
  else if u.currentTier == "pro" then 1000
  else if u.currentTier == "enterprise" then 5000
  else 60

/-- The `APIUsage` ORM model (`app/db/models/usage.py`, lines 12-44): the
per-(consumer, API) usage counter row. -/
structure APIUsage where
  userId : Int
  apiId : Int
  callsThisMonth : Int
  callsTotal : Int
  costThisMonth : Int
  costTotal : Int
  deriving DecidableEq, Repr

/-- The `UsageLog` ORM model (`app/db/models/usage.py`, lines 46-99), restricted
to the fields `call_api` writes that the claims mention. -/
structure UsageLog where
  userId : Int
  apiId : Int
  endpointPath : String
  method : String
  requestId : String
  statusCode : Int
  responseTimeMs : Int
  responseSizeBytes : Int
  cost : Int
  wasFree : Bool
  deriving DecidableEq, Repr

/-- The `APICallRequest` schema (`app/schemas/api.py`): the inbound call request.
`params` and `data` are opaque to the handler's control flow and are carried
as rendered strings. -/
structure APICallRequest where
  endpoint : String
  method : String
  headers : Option (List (String × String))
  params : Option (List (String × String))
  data : Option String
  deriving DecidableEq, Repr

/-- The `APICallResponse` schema (`app/schemas/api.py`), restricted to the scalar
fields. -/
structure APICallResponse where
  requestId : String
  statusCode : Int
  responseTimeMs : Int
  cost : Int
  wasFree : Bool
  deriving DecidableEq, Repr

/-- Outcome of the upstream HTTP request issued at `apis.py` lines 202-209:
either a received response (any status code), `httpx.TimeoutException`, or
`httpx.RequestError`.  `latencyMs` is the measured
`int((time.time() - start_time) * 1000)`; `content` is the response body,
whose byte length the handler records. -/
inductive UpstreamOutcome where
  | response (statusCode : Int) (content : String) (latencyMs : Int)
  | timeout
  | requestError (msg : String)
  deriving DecidableEq, Repr

/-- The outward error exits of `call_api`: the raised `HTTPException`s with
statuses 404, 403, 402, 504, 502. -/
inductive CallError where
  | notFound
  | forbidden
  | paymentRequired
  | gatewayTimeout
  | badGateway
  deriving DecidableEq, Repr

/-- Persistent ledger state for one (consumer, API) pair: the `api_usage` row
(absent until lazily created and committed) and the append-only `usage_logs`
rows. -/
structure Ledger where
  usage : Option APIUsage
  logs : List UsageLog
  deriving DecidableEq, Repr

/-- The API lookup of `apis.py` line 143: `select(API).where(API.id == api_id,
API.is_active == True, API.status == "published")`. -/
def findApi (apis : List API) (apiId : Int) : Option API :=
  apis.find? fun a => a.id == apiId && a.isActive && a.status == "published"

/-- The lazily created zero-valued usage row of `apis.py` lines 168-177. -/
def freshUsage (userId apiId : Int) : APIUsage :=
  { userId := userId, apiId := apiId
    callsThisMonth := 0, callsTotal := 0, costThisMonth := 0, costTotal := 0 }

/-- Cost decision of `apis.py` lines 214-220: start from `(0.0, True)` and
switch to `(price_per_call, False)` when the pre-increment counter has
reached the free quota. -/
def decideCost (api : API) (callsThisMonth : Int) : Int × Bool :=
  if callsThisMonth ≥ api.freeCallsPerMonth then (api.pricePerCall, false) else (0, true)

/-- Counter update of `apis.py` lines 244-247. -/
def APIUsage.applyCall (u : APIUsage) (cost : Int) : APIUsage :=
  { u with
    callsThisMonth := u.callsThisMonth + 1
    callsTotal := u.callsTotal + 1
    costThisMonth := u.costThisMonth + cost
    costTotal := u.costTotal + cost }

/-- Handler `call_api` (`apis.py`, lines 131-278) as a transition on the persistent
ledger of the (caller, API) pair.  The returned ledger is the committed
state: the single `await db.commit()` at line 249 is the only commit, so all
`raise HTTPException` exits (lines 148, 155, 183, 270, 275) leave the ledger
as it was — the session, including the pending lazily-added zero counter, is
rolled back by `get_db`. -/
def callApi (apis : List API) (apiId : Int) (user : User) (led : Ledger)
    (req : APICallRequest) (requestId : String) (outcome : UpstreamOutcome) :
    Ledger × Except CallError APICallResponse :=
  match findApi apis apiId with
  | none => (led, .error .notFound)
  | some api =>
    if !api.isPublic && api.ownerId != user.id then
      (led, .error .forbidden)
    else
      let usage := led.usage.getD (freshUsage user.id api.id)
      if usage.callsThisMonth ≥ api.freeCallsPerMonth && !user.isPremium then
        (led, .error .paymentRequired)
      else
        match outcome with
        | .timeout => (led, .error .gatewayTimeout)
        | .requestError _ => (led, .error .badGateway)
        | .response statusCode content latencyMs =>
          let cw := decideCost api usage.callsThisMonth
          let log : UsageLog :=
            { userId := user.id, apiId := api.id
              endpointPath := req.endpoint, method := req.method
              requestId := requestId
              statusCode := statusCode, responseTimeMs := latencyMs
              responseSizeBytes := content.length
              cost := cw.1, wasFree := cw.2 }
          ({ usage := some (usage.applyCall cw.1), logs := led.logs ++ [log] },
           .ok { requestId := requestId, statusCode := statusCode
                 responseTimeMs := latencyMs, cost := cw.1, wasFree := cw.2 })

/-- Python's `str.rstrip('/')` applied at `apis.py` line 193. -/
def rstripChar (s : String) (c : Char) : String :=
  ⟨(s.data.reverse.dropWhile (· == c)).reverse⟩

/-- Full upstream URL of `apis.py` line 193:
`f"{api.base_url.rstrip('/')}{call_request.endpoint}"`. -/
def fullUrl (api : API) (req : APICallRequest) : String :=
  rstripChar api.baseUrl '/' ++ req.endpoint

/-- The caller-supplied headers as they enter the header dict at
`apis.py` line 196 (`call_request.headers or \x7b\x7d`). -/
def callerHeaders (req : APICallRequest) : List (String × Option String) :=
  (req.headers.getD []).map (fun p => (p.1, some p.2))

/-- Python dict assignment `m[k] = v`: replace the value of an existing key,
otherwise add the pair.  Header values are `Option String` because
`auth_config.get("api_key")` may be `None`. -/
def dictSet (m : List (String × Option String)) (k : String) (v : Option String) :
    List (String × Option String) :=
  if m.any (fun p => p.1 == k) then m.map (fun p => if p.1 == k then (k, v) else p)
  else m ++ [(k, v)]

/-- Header preparation of `apis.py` lines 196-198: start from the caller's
headers (`call_request.headers or {}`), then, when `auth_type == "api_key"`
and `auth_config` is truthy, set the configured header name (default
`"Authorization"`) to the configured key value. -/
def upstreamHeaders (api : API) (req : APICallRequest) : List (String × Option String) :=
  let headers := callerHeaders req
  if api.authType == "api_key" then
    match api.authConfig with
    | some cfg => dictSet headers (cfg.headerName.getD "Authorization") cfg.apiKey
    | none => headers
  else headers

/-- The upstream HTTP request issued at `apis.py` lines 202-209. -/
structure UpstreamRequest where
  method : String
  url : String
  headers : List (String × Option String)
  params : Option (List (String × String))
  jsonBody : Option String
  deriving DecidableEq, Repr

/-- Assembly of the upstream request (`apis.py`, lines 192-209): the JSON
body is forwarded only for POST/PUT/PATCH. -/
def buildUpstreamRequest (api : API) (req : APICallRequest) : UpstreamRequest :=
  { method := req.method
    url := fullUrl api req
    headers := upstreamHeaders api req
    params := req.params
    jsonBody :=
      if req.method == "POST" || req.method == "PUT" || req.method == "PATCH" then req.data
      else none }

/-! ## Interleaved semantics of two concurrent invocations

Each inbound request runs in its own worker with its own SQLAlchemy session
(`get_db`).  Within one invocation the usage row is read (or lazily created)
at `apis.py` lines 161-177 *before* the upstream call, and the cost decision,
counter update and commit at lines 214-249 happen *after* it, using the
session's own snapshot of the row; the commit issues an UPDATE carrying the
absolute values held by the session object.  There is no row lock and no
conditional update, so two sessions may interleave between read and commit. -/

/-- Per-session state of one in-flight invocation: the usage-row snapshot
captured by the session's SELECT (or the lazily created zero row), and the
(cost, wasFree) decision once the session has committed. -/
structure SessionLocal where
  snapshot : Option APIUsage
  result : Option (Int × Bool)
  deriving DecidableEq, Repr

/-- Combined state of the shared store and two concurrent sessions A and B. -/
structure TwoCallState where
  shared : Ledger
  localA : SessionLocal
  localB : SessionLocal
  deriving DecidableEq, Repr

/-- The two store round-trips of one invocation: the usage-row read
(lines 161-177) and the decide-update-commit step (lines 214-249). -/
inductive TwoAct where
  | readA
  | readB
  | commitA
  | commitB
  deriving DecidableEq, Repr

/-- The usage-row read of `apis.py` lines 161-177: fetch the row, or lazily
create a zero-valued one. -/
def sessionRead (shared : Ledger) (userId apiId : Int) : APIUsage :=
  shared.usage.getD (freshUsage userId apiId)

/-- The post-upstream step of one session (`apis.py` lines 214-249): decide
the cost from the session's snapshot, append the audit row, and commit the
snapshot's incremented counters as absolute values over the shared row.  A
session that has not yet performed its read does nothing. -/
def sessionCommit (api : API) (user : User) (req : APICallRequest) (requestId : String)
    (statusCode : Int) (content : String) (latencyMs : Int)
    (shared : Ledger) (l : SessionLocal) : Ledger × SessionLocal :=
  match l.snapshot with
  | none => (shared, l)
  | some usage =>
    let cw := decideCost api usage.callsThisMonth
    let log : UsageLog :=
      { userId := user.id, apiId := api.id
        endpointPath := req.endpoint, method := req.method
        requestId := requestId
        statusCode := statusCode, responseTimeMs := latencyMs
        responseSizeBytes := content.length
        cost := cw.1, wasFree := cw.2 }
    ({ usage := some (usage.applyCall cw.1), logs := shared.logs ++ [log] },
     { l with result := some cw })

/-- One scheduler step interleaving sessions A and B (same caller, same API,
both upstream calls succeeding with the given status). -/
def twoStep (api : API) (user : User) (req : APICallRequest) (ridA ridB : String)
    (statusCode : Int) (content : String) (latencyMs : Int)
    (s : TwoCallState) : TwoAct → TwoCallState
  | .readA =>
    { s with localA := { s.localA with snapshot := some (sessionRead s.shared user.id api.id) } }
  | .readB =>
    { s with localB := { s.localB with snapshot := some (sessionRead s.shared user.id api.id) } }
  | .commitA =>
    let (sh, l) := sessionCommit api user req ridA statusCode content latencyMs s.shared s.localA
    { s with shared := sh, localA := l }
  | .commitB =>
    let (sh, l) := sessionCommit api user req ridB statusCode content latencyMs s.shared s.localB
    { s with shared := sh, localB := l }

/-- Run a schedule of interleaved actions. -/
def runTwo (api : API) (user : User) (req : APICallRequest) (ridA ridB : String)
    (statusCode : Int) (content : String) (latencyMs : Int)
    (s : TwoCallState) (acts : List TwoAct) : TwoCallState :=
  acts.foldl (twoStep api user req ridA ridB statusCode content latencyMs) s

/-! ## Sequential traces -/

/-- External inputs of one invocation in a sequential trace. -/
structure CallEvent where
  req : APICallRequest
  requestId : String
  outcome : UpstreamOutcome
  deriving DecidableEq, Repr

/-- Sequential execution of a list of invocations by the same caller against
the same API, threading the committed ledger. -/
def runCalls (apis : List API) (apiId : Int) (user : User) (led : Ledger) :
    List CallEvent → Ledger
  | [] => led
  | e :: es =>
    runCalls apis apiId user (callApi apis apiId user led e.req e.requestId e.outcome).1 es

/-- Counter sanity of one usage row: non-negative monthly counter, bounded by
the cumulative total. -/
def usageRowInv (u : APIUsage) : Bool :=
  0 ≤ u.callsThisMonth && u.callsThisMonth ≤ u.callsTotal

/-- Ledger invariant: every present usage row satisfies `usageRowInv`. -/
def ledgerInv (led : Ledger) : Bool :=
  match led.usage with
  | none => true
  | some u => usageRowInv u

/-! ## Concrete fixtures (used by scenario theorems, witnesses and
counterexamples) -/

/-- The spec's scenario API: `base_url="https://x.test"`, `price_per_call=50`,
`free_calls_per_month=2`, public, active, published. -/
def api50 : API :=
  { id := 1, ownerId := 7, baseUrl := "https://x.test", authType := "none"
    authConfig := none, pricingModel := "per_call", pricePerCall := 50
    freeCallsPerMonth := 2, isActive := true, isPublic := true, status := "published" }

/-- A paid-standing consumer (tier `builder`). -/
def builderUser : User := { id := 2, currentTier := "builder", numApis := 0 }

/-- A free-tier consumer. -/
def freeUser : User := { id := 3, currentTier := "free", numApis := 0 }

/-- A plain GET call request. -/
def getReq : APICallRequest :=
  { endpoint := "/v1/data", method := "GET", headers := none, params := none, data := none }

/-- Ledger before any call: no usage row, no audit rows. -/
def emptyLedger : Ledger := { usage := none, logs := [] }

/-- A successful upstream response with status 200. -/
def ok200 : UpstreamOutcome := .response 200 "ok" 12

/-- Lookup of a header value in the prepared header dict. -/
def headerGet (m : List (String × Option String)) (k : String) : Option (Option String) :=
  (m.find? (fun p => p.1 == k)).map (·.2)

/-- An API using the `api_key` auth scheme with a configured header. -/
def apiKeyApi : API :=
  { api50 with
    id := 4
    authType := "api_key"
    authConfig := some { headerName := some "X-API-Key", apiKey := some "sek" } }

/-- A call request carrying a caller-supplied credential header with value
`"a"`. -/
def reqA : APICallRequest := { getReq with headers := some [("X-Caller-Token", "a")] }

/-- The same call request except the caller-supplied header value is `"b"`. -/
def reqB : APICallRequest := { getReq with headers := some [("X-Caller-Token", "b")] }

/-- Shared state for the concurrency scenario: the usage row of the
(builder consumer, scenario API) pair sits at one free call remaining
(`calls_this_month = free_calls_per_month - 1 = 1`), and neither session has
started. -/
def initTwo : TwoCallState :=
  { shared := { usage := some { userId := 2, apiId := 1, callsThisMonth := 1
                                callsTotal := 1, costThisMonth := 0, costTotal := 0 }
                logs := [] }
    localA := { snapshot := none, result := none }
    localB := { snapshot := none, result := none } }

/-- The racy schedule: both sessions read the usage row before either
commits. -/
def racySchedule : List TwoAct := [.readA, .readB, .commitA, .commitB]

/-- The audit row written by a successful proxied call (`apis.py`,
lines 223-239), as a function of its ingredients. -/
def mkLog (user : User) (api : API) (req : APICallRequest) (rid : String)
    (sc : Int) (content : String) (lat : Int) (cw : Int × Bool) : UsageLog :=
  { userId := user.id, apiId := api.id
    endpointPath := req.endpoint, method := req.method
    requestId := rid
    statusCode := sc, responseTimeMs := lat
    responseSizeBytes := content.length
    cost := cw.1, wasFree := cw.2 }

/-- A private (non-public) variant of the scenario API, owned by user 7. -/
def privApi : API := { api50 with isPublic := false }

/-- Ledger in which the free-tier consumer has already used both free calls
of the scenario API. -/
def twoCallLedger : Ledger :=
  { usage := some { userId := 3, apiId := 1, callsThisMonth := 2, callsTotal := 2
                    costThisMonth := 0, costTotal := 0 }
    logs := [] }

/-! ## Branch lemmas for `callApi` -/

theorem decideCost_lt {api : API} {n : Int} (h : n < api.freeCallsPerMonth) :
    decideCost api n = (0, true) := by
  unfold decideCost
  rw [if_neg (not_le.mpr h)]

theorem decideCost_ge {api : API} {n : Int} (h : api.freeCallsPerMonth ≤ n) :
    decideCost api n = (api.pricePerCall, false) := by
  unfold decideCost
  rw [if_pos h]

theorem callApi_notFound {apis : List API} {apiId : Int} (user : User) (led : Ledger)
    (req : APICallRequest) (rid : String) (outcome : UpstreamOutcome)
    (hfind : findApi apis apiId = none) :
    callApi apis apiId user led req rid outcome = (led, .error .notFound) := by
  unfold callApi
  rw [hfind]

theorem callApi_forbidden {apis : List API} {apiId : Int} {api : API} (user : User)
    (led : Ledger) (req : APICallRequest) (rid : String) (outcome : UpstreamOutcome)
    (hfind : findApi apis apiId = some api)
    (hpriv : api.isPublic = false) (hown : api.ownerId ≠ user.id) :
    callApi apis apiId user led req rid outcome = (led, .error .forbidden) := by
  unfold callApi
  rw [hfind]
  simp [hpriv, hown]

theorem callApi_paymentRequired {apis : List API} {apiId : Int} {api : API} (user : User)
    (led : Ledger) (req : APICallRequest) (rid : String) (outcome : UpstreamOutcome)
    (hfind : findApi apis apiId = some api)
    (hacc : (!api.isPublic && api.ownerId != user.id) = false)
    (hquota : api.freeCallsPerMonth ≤ (led.usage.getD (freshUsage user.id api.id)).callsThisMonth)
    (hprem : user.isPremium = false) :
    callApi apis apiId user led req rid outcome = (led, .error .paymentRequired) := by
  unfold callApi
  rw [hfind]
  simp [hacc, hquota, hprem]

theorem callApi_timeout {apis : List API} {apiId : Int} {api : API} (user : User)
    (led : Ledger) (req : APICallRequest) (rid : String)
    (hfind : findApi apis apiId = some api)
    (hacc : (!api.isPublic && api.ownerId != user.id) = false)
    (hquota : ((led.usage.getD (freshUsage user.id api.id)).callsThisMonth ≥
        api.freeCallsPerMonth && !user.isPremium) = false) :
    callApi apis apiId user led req rid .timeout = (led, .error .gatewayTimeout) := by
  unfold callApi
  rw [hfind]
  simp [hacc, hquota]

theorem callApi_requestError {apis : List API} {apiId : Int} {api : API} (user : User)
    (led : Ledger) (req : APICallRequest) (rid : String) (msg : String)
    (hfind : findApi apis apiId = some api)
    (hacc : (!api.isPublic && api.ownerId != user.id) = false)
    (hquota : ((led.usage.getD (freshUsage user.id api.id)).callsThisMonth ≥
        api.freeCallsPerMonth && !user.isPremium) = false) :
    callApi apis apiId user led req rid (.requestError msg) = (led, .error .badGateway) := by
  unfold callApi
  rw [hfind]
  simp [hacc, hquota]

theorem callApi_response_eq {apis : List API} {apiId : Int} {api : API} (user : User)
    (led : Ledger) (req : APICallRequest) (rid : String) (sc : Int) (content : String)
    (lat : Int)
    (hfind : findApi apis apiId = some api)
    (hacc : (!api.isPublic && api.ownerId != user.id) = false)
    (hquota : ((led.usage.getD (freshUsage user.id api.id)).callsThisMonth ≥
        api.freeCallsPerMonth && !user.isPremium) = false) :
    callApi apis apiId user led req rid (.response sc content lat) =
      (let usage := led.usage.getD (freshUsage user.id api.id)
       let cw := decideCost api usage.callsThisMonth
       ({ usage := some (usage.applyCall cw.1)
          logs := led.logs ++
            [{ userId := user.id, apiId := api.id
               endpointPath := req.endpoint, method := req.method
               requestId := rid
               statusCode := sc, responseTimeMs := lat
               responseSizeBytes := content.length
               cost := cw.1, wasFree := cw.2 }] },
       .ok { requestId := rid, statusCode := sc, responseTimeMs := lat
             cost := cw.1, wasFree := cw.2 })) := by
  unfold callApi
  rw [hfind]
  simp [hacc, hquota]

/-- Inversion principle: a `callApi` run that returns `.ok` went through the
full success path — the API was found, the upstream outcome was a received
response, the access and quota gates passed, and the committed ledger and the
response are exactly the ones built at `apis.py` lines 214-267. -/
theorem callApi_ok_inversion {apis : List API} {apiId : Int} {user : User} {led : Ledger}
    {req : APICallRequest} {rid : String} {out : UpstreamOutcome}
    {led' : Ledger} {resp : APICallResponse}
    (h : callApi apis apiId user led req rid out = (led', .ok resp)) :
    ∃ api sc content lat,
      findApi apis apiId = some api ∧
      out = .response sc content lat ∧
      (!api.isPublic && api.ownerId != user.id) = false ∧
      ((led.usage.getD (freshUsage user.id api.id)).callsThisMonth ≥
          api.freeCallsPerMonth && !user.isPremium) = false ∧
      led' = { usage := some ((led.usage.getD (freshUsage user.id api.id)).applyCall
                  (decideCost api (led.usage.getD (freshUsage user.id api.id)).callsThisMonth).1)
               logs := led.logs ++ [mkLog user api req rid sc content lat
                  (decideCost api (led.usage.getD (freshUsage user.id api.id)).callsThisMonth)] } ∧
      resp = { requestId := rid, statusCode := sc, responseTimeMs := lat
               cost := (decideCost api (led.usage.getD (freshUsage user.id api.id)).callsThisMonth).1
               wasFree := (decideCost api (led.usage.getD (freshUsage user.id api.id)).callsThisMonth).2 } := by
  unfold callApi at h
  cases hfind : findApi apis apiId with
  | none =>
    rw [hfind] at h
    simp at h
  | some api =>
    rw [hfind] at h
    dsimp only at h
    by_cases hacc : (!api.isPublic && api.ownerId != user.id) = true
    · rw [if_pos hacc] at h
      simp at h
    · rw [if_neg hacc] at h
      by_cases hq : ((led.usage.getD (freshUsage user.id api.id)).callsThisMonth ≥
          api.freeCallsPerMonth && !user.isPremium) = true
      · rw [if_pos hq] at h
        simp at h
      · rw [if_neg hq] at h
        cases out with
        | timeout => simp at h
        | requestError m => simp at h
        | response sc content lat =>
          have h1 := congrArg Prod.fst h
          have h2 := congrArg Prod.snd h
          simp only [Prod.fst, Prod.snd] at h1 h2
          refine ⟨api, sc, content, lat, rfl, rfl,
            Bool.not_eq_true _ ▸ hacc, Bool.not_eq_true _ ▸ hq, h1.symm ▸ ?_, ?_⟩
          · rfl
          · cases h2
            rfl

/-- Inversion principle for the error exits: every `raise HTTPException` path
of `call_api` precedes the sole `await db.commit()` (`apis.py`, line 249),
and `get_db` rolls the session back on exception, so the committed ledger is
unchanged. -/
theorem callApi_error_ledger {apis : List API} {apiId : Int} {user : User} {led : Ledger}
    {req : APICallRequest} {rid : String} {out : UpstreamOutcome}
    {led' : Ledger} {e : CallError}
    (h : callApi apis apiId user led req rid out = (led', .error e)) : led' = led := by
  unfold callApi at h
  cases hfind : findApi apis apiId with
  | none =>
    rw [hfind] at h
    exact (congrArg Prod.fst h).symm
  | some api =>
    rw [hfind] at h
    dsimp only at h
    by_cases hacc : (!api.isPublic && api.ownerId != user.id) = true
    · rw [if_pos hacc] at h
      exact (congrArg Prod.fst h).symm
    · rw [if_neg hacc] at h
      by_cases hq : ((led.usage.getD (freshUsage user.id api.id)).callsThisMonth ≥
          api.freeCallsPerMonth && !user.isPremium) = true
      · rw [if_pos hq] at h
        exact (congrArg Prod.fst h).symm
      · rw [if_neg hq] at h
        cases out with
        | timeout => exact (congrArg Prod.fst h).symm
        | requestError m => exact (congrArg Prod.fst h).symm
        | response sc content lat =>
          exact absurd (congrArg Prod.snd h) (by simp)

/-! ## Header-dict lemmas -/

theorem find?_overwrite_same {m : List (String × Option String)} {k : String}
    {v : Option String} (h : m.any (fun p => p.1 == k) = true) :
    (m.map (fun p => if p.1 == k then (k, v) else p)).find? (fun p => p.1 == k) =
      some (k, v) := by
  induction m with
  | nil => simp at h
  | cons p m ih =>
    rw [List.any_cons, Bool.or_eq_true] at h
    rw [List.map_cons]
    by_cases hp : (p.1 == k) = true
    · rw [if_pos hp]
      exact List.find?_cons_of_pos _ (by simp)
    · rw [if_neg hp]
      have step : List.find? (fun q => q.1 == k)
          (p :: m.map (fun q => if q.1 == k then (k, v) else q)) =
          List.find? (fun q => q.1 == k) (m.map (fun q => if q.1 == k then (k, v) else q)) :=
        List.find?_cons_of_neg _ hp
      rw [step]
      exact ih (h.resolve_left hp)

theorem find?_overwrite_other {m : List (String × Option String)} {k : String}
    {v : Option String} {j : String} (h : (j == k) = false) :
    (m.map (fun p => if p.1 == k then (k, v) else p)).find? (fun p => p.1 == j) =
      m.find? (fun p => p.1 == j) := by
  have hkj : ¬ ((k, v).1 == j) = true := by
    have hjk : j ≠ k := by simpa using h
    simp [Ne.symm hjk]
  induction m with
  | nil => rfl
  | cons p m ih =>
    rw [List.map_cons]
    by_cases hp : (p.1 == k) = true
    · have hk : p.1 = k := by simpa using hp
      have hpj : ¬ (p.1 == j) = true := by rw [hk]; exact hkj
      have s1 : List.find? (fun q => q.1 == j)
          ((k, v) :: m.map (fun q => if q.1 == k then (k, v) else q)) =
          List.find? (fun q => q.1 == j) (m.map (fun q => if q.1 == k then (k, v) else q)) :=
        List.find?_cons_of_neg _ hkj
      have s2 : List.find? (fun q => q.1 == j) (p :: m) =
          List.find? (fun q => q.1 == j) m :=
        List.find?_cons_of_neg _ hpj
      rw [if_pos hp, s1, s2]
      exact ih
    · rw [if_neg hp]
      by_cases hj : (p.1 == j) = true
      · have s1 : List.find? (fun q => q.1 == j)
            (p :: m.map (fun q => if q.1 == k then (k, v) else q)) = some p :=
          List.find?_cons_of_pos _ hj
        have s2 : List.find? (fun q => q.1 == j) (p :: m) = some p :=
          List.find?_cons_of_pos _ hj
        rw [s1, s2]
      · have s1 : List.find? (fun q => q.1 == j)
            (p :: m.map (fun q => if q.1 == k then (k, v) else q)) =
            List.find? (fun q => q.1 == j) (m.map (fun q => if q.1 == k then (k, v) else q)) :=
          List.find?_cons_of_neg _ hj
        have s2 : List.find? (fun q => q.1 == j) (p :: m) =
            List.find? (fun q => q.1 == j) m :=
          List.find?_cons_of_neg _ hj
        rw [s1, s2]
        exact ih

theorem find?_append_fresh {m : List (String × Option String)} {k : String}
    {v : Option String} (h : m.any (fun p => p.1 == k) = false) :
    (m ++ [(k, v)]).find? (fun p => p.1 == k) = some (k, v) := by
  induction m with
  | nil => exact List.find?_cons_of_pos _ (by simp)
  | cons p m ih =>
    rw [List.any_cons, Bool.or_eq_false_iff] at h
    have step : List.find? (fun q => q.1 == k) (p :: (m ++ [(k, v)])) =
        List.find? (fun q => q.1 == k) (m ++ [(k, v)]) :=
      List.find?_cons_of_neg _ (by simp [h.1])
    rw [List.cons_append, step]
    exact ih h.2

theorem find?_append_other {m : List (String × Option String)} {k : String}
    {v : Option String} {j : String} (h : (j == k) = false) :
    (m ++ [(k, v)]).find? (fun p => p.1 == j) = m.find? (fun p => p.1 == j) := by
  have hkj : ¬ ((k, v).1 == j) = true := by
    have hjk : j ≠ k := by simpa using h
    simp [Ne.symm hjk]
  induction m with
  | nil =>
    rw [List.nil_append]
    exact List.find?_cons_of_neg _ hkj
  | cons p m ih =>
    rw [List.cons_append]
    by_cases hj : (p.1 == j) = true
    · have s1 : List.find? (fun q => q.1 == j) (p :: (m ++ [(k, v)])) = some p :=
        List.find?_cons_of_pos _ hj
      have s2 : List.find? (fun q => q.1 == j) (p :: m) = some p :=
        List.find?_cons_of_pos _ hj
      rw [s1, s2]
    · have s1 : List.find? (fun q => q.1 == j) (p :: (m ++ [(k, v)])) =
          List.find? (fun q => q.1 == j) (m ++ [(k, v)]) :=
        List.find?_cons_of_neg _ hj
      have s2 : List.find? (fun q => q.1 == j) (p :: m) =
          List.find? (fun q => q.1 == j) m :=
        List.find?_cons_of_neg _ hj
      rw [s1, s2]
      exact ih

/-- Setting a key in the header dict makes that key map to the new value. -/
theorem headerGet_dictSet_same (m : List (String × Option String)) (k : String)
    (v : Option String) : headerGet (dictSet m k v) k = some v := by
  unfold headerGet dictSet
  by_cases h : m.any (fun p => p.1 == k) = true
  · rw [if_pos h, find?_overwrite_same h]
    rfl
  · rw [if_neg h, find?_append_fresh (Bool.not_eq_true _ ▸ h)]
    rfl

/-- Setting a key in the header dict leaves every other key unchanged. -/
theorem headerGet_dictSet_other {m : List (String × Option String)} {k : String}
    {v : Option String} {j : String} (h : j ≠ k) :
    headerGet (dictSet m k v) j = headerGet m j := by
  have hb : (j == k) = false := by simpa using h
  unfold headerGet dictSet
  by_cases hm : m.any (fun p => p.1 == k) = true
  · rw [if_pos hm, find?_overwrite_other hb]
  · rw [if_neg hm, find?_append_other hb]

/-- Every run either leaves the committed ledger unchanged (an error exit)
or commits exactly the success-path update. -/
theorem callApi_fst_cases (apis : List API) (apiId : Int) (user : User) (led : Ledger)
    (req : APICallRequest) (rid : String) (out : UpstreamOutcome) :
    (callApi apis apiId user led req rid out).1 = led ∨
    ∃ api sc content lat,
      findApi apis apiId = some api ∧ out = .response sc content lat ∧
      (callApi apis apiId user led req rid out).1 =
        { usage := some ((led.usage.getD (freshUsage user.id api.id)).applyCall
            (decideCost api (led.usage.getD (freshUsage user.id api.id)).callsThisMonth).1)
          logs := led.logs ++ [mkLog user api req rid sc content lat
            (decideCost api (led.usage.getD (freshUsage user.id api.id)).callsThisMonth)] } := by
  rcases hr : callApi apis apiId user led req rid out with ⟨l, r⟩
  cases r with
  | error e =>
    left
    exact callApi_error_ledger hr
  | ok resp =>
    right
    obtain ⟨api, sc, content, lat, hfind, hout, _, _, hled, _⟩ := callApi_ok_inversion hr
    exact ⟨api, sc, content, lat, hfind, hout, hled⟩

/-- One handler step preserves the counter sanity invariant. -/
theorem ledgerInv_step (apis : List API) (apiId : Int) (user : User) (led : Ledger)
    (req : APICallRequest) (rid : String) (out : UpstreamOutcome)
    (h : ledgerInv led = true) :
    ledgerInv (callApi apis apiId user led req rid out).1 = true := by
  rcases callApi_fst_cases apis apiId user led req rid out with hsame |
    ⟨api, sc, content, lat, _, _, heq⟩
  · rw [hsame]
    exact h
  · rw [heq]
    unfold ledgerInv at h ⊢
    cases hu : led.usage with
    | none => rfl
    | some u =>
      rw [hu] at h
      have h' : usageRowInv u = true := h
      show usageRowInv (u.applyCall (decideCost api u.callsThisMonth).1) = true
      simp only [usageRowInv, APIUsage.applyCall, Bool.and_eq_true,
        decide_eq_true_eq] at h' ⊢
      omega

/-- The counter sanity invariant is preserved along every sequential trace. -/
theorem ledgerInv_runCalls (apis : List API) (apiId : Int) (user : User) :
    ∀ (events : List CallEvent) (led : Ledger), ledgerInv led = true →
      ledgerInv (runCalls apis apiId user led events) = true
  | [], _, h => h
  | e :: es, led, h =>
    ledgerInv_runCalls apis apiId user es _
      (ledgerInv_step apis apiId user led e.req e.requestId e.outcome h)

/-! ## Claims -/

/-- C1: for every call that reaches the upstream-execution stage (the handler
returns `.ok`), the free/paid decision is a function of the usage counter's
pre-increment value — strictly below `free_calls_per_month` gives `cost = 0`
and `wasFree = true`, otherwise `cost = price_per_call` and
`wasFree = false`; and the spec's scenario against `api50`
(`price_per_call = 50`, `free_calls_per_month = 2`) behaves exactly as
stated: calls 1 and 2 free with cost 0, call 3 paid with cost 50,
`calls_this_month = 3` and `cost_this_month = 50`. -/
theorem C1_cost_decision_from_pre_increment_counter :
    (∀ (apis : List API) (apiId : Int) (user : User) (led : Ledger)
        (req : APICallRequest) (rid : String) (out : UpstreamOutcome)
        (led' : Ledger) (resp : APICallResponse) (api : API),
      findApi apis apiId = some api →
      callApi apis apiId user led req rid out = (led', .ok resp) →
      (((led.usage.getD (freshUsage user.id api.id)).callsThisMonth <
          api.freeCallsPerMonth → resp.cost = 0 ∧ resp.wasFree = true) ∧
       (api.freeCallsPerMonth ≤
          (led.usage.getD (freshUsage user.id api.id)).callsThisMonth →
          resp.cost = api.pricePerCall ∧ resp.wasFree = false))) ∧
    (let s1 := callApi [api50] 1 builderUser emptyLedger getReq "c1" ok200
     let s2 := callApi [api50] 1 builderUser s1.1 getReq "c2" ok200
     let s3 := callApi [api50] 1 builderUser s2.1 getReq "c3" ok200
     s1.2 = .ok { requestId := "c1", statusCode := 200, responseTimeMs := 12
                  cost := 0, wasFree := true } ∧
     s1.1.usage.map APIUsage.callsThisMonth = some 1 ∧
     s2.2 = .ok { requestId := "c2", statusCode := 200, responseTimeMs := 12
                  cost := 0, wasFree := true } ∧
     s2.1.usage.map APIUsage.callsThisMonth = some 2 ∧
     s3.2 = .ok { requestId := "c3", statusCode := 200, responseTimeMs := 12
                  cost := 50, wasFree := false } ∧
     s3.1.usage.map APIUsage.callsThisMonth = some 3 ∧
     s3.1.usage.map APIUsage.costThisMonth = some 50) := by
  constructor
  · intro apis apiId user led req rid out led' resp api hfind hcall
    obtain ⟨api', sc, content, lat, hfind', hout, hacc, hq, hled, hresp⟩ :=
      callApi_ok_inversion hcall
    rw [hfind] at hfind'
    injection hfind' with hapi
    subst hapi
    subst hresp
    constructor
    · intro hlt
      exact ⟨by simp [decideCost_lt hlt], by simp [decideCost_lt hlt]⟩
    · intro hge
      exact ⟨by simp [decideCost_ge hge], by simp [decideCost_ge hge]⟩
  · exact ⟨rfl, rfl, rfl, rfl, rfl, rfl, rfl⟩

/-- Witness for C1: the first scenario call is free with cost 0, obtained by
applying the cost-decision theorem at the concrete input. -/
theorem C1_cost_decision_from_pre_increment_counter_witness :
    ({ requestId := "c1", statusCode := 200, responseTimeMs := 12, cost := 0
       wasFree := true } : APICallResponse).cost = 0 ∧
    ({ requestId := "c1", statusCode := 200, responseTimeMs := 12, cost := 0
       wasFree := true } : APICallResponse).wasFree = true :=
  (C1_cost_decision_from_pre_increment_counter.1 [api50] 1 builderUser emptyLedger
    getReq "c1" ok200
    (callApi [api50] 1 builderUser emptyLedger getReq "c1" ok200).1
    { requestId := "c1", statusCode := 200, responseTimeMs := 12, cost := 0
      wasFree := true }
    api50 rfl (by rfl)).1 (by decide)

/-- C4: the preconditions are checked in a fixed order with distinct failure
modes — a missing, inactive or unpublished API gives `notFound`; then a
private API with a non-owner caller gives `forbidden` regardless of ledger
and quota state; then an exhausted quota with a tier outside
builder/pro/enterprise gives `paymentRequired`; and a private-API non-owner
caller can never receive `paymentRequired`. -/
theorem C4_precondition_order_and_failure_modes :
    (∀ (apis : List API) (apiId : Int) (user : User) (led : Ledger)
        (req : APICallRequest) (rid : String) (out : UpstreamOutcome),
      (∀ a ∈ apis, a.id = apiId → ¬(a.isActive = true ∧ a.status = "published")) →
      callApi apis apiId user led req rid out = (led, .error .notFound)) ∧
    (∀ (apis : List API) (apiId : Int) (api : API) (user : User) (led : Ledger)
        (req : APICallRequest) (rid : String) (out : UpstreamOutcome),
      findApi apis apiId = some api →
      api.isPublic = false → api.ownerId ≠ user.id →
      callApi apis apiId user led req rid out = (led, .error .forbidden)) ∧
    (∀ (apis : List API) (apiId : Int) (api : API) (user : User) (led : Ledger)
        (req : APICallRequest) (rid : String) (out : UpstreamOutcome),
      findApi apis apiId = some api →
      (api.isPublic = true ∨ api.ownerId = user.id) →
      api.freeCallsPerMonth ≤
        (led.usage.getD (freshUsage user.id api.id)).callsThisMonth →
      user.currentTier ≠ "builder" → user.currentTier ≠ "pro" →
      user.currentTier ≠ "enterprise" →
      callApi apis apiId user led req rid out = (led, .error .paymentRequired)) ∧
    (∀ (apis : List API) (apiId : Int) (api : API) (user : User) (led led' : Ledger)
        (req : APICallRequest) (rid : String) (out : UpstreamOutcome),
      findApi apis apiId = some api →
      api.isPublic = false → api.ownerId ≠ user.id →
      callApi apis apiId user led req rid out ≠ (led', .error .paymentRequired)) := by
  refine ⟨?notfound, ?forbidden, ?payment, ?nevPay⟩
  case notfound =>
    intro apis apiId user led req rid out hnone
    refine callApi_notFound user led req rid out ?_
    rw [findApi, List.find?_eq_none]
    intro a ha hpred
    simp only [Bool.and_eq_true, beq_iff_eq] at hpred
    exact hnone a ha hpred.1.1 ⟨hpred.1.2, hpred.2⟩
  case forbidden =>
    intro apis apiId api user led req rid out hfind hpriv hown
    exact callApi_forbidden user led req rid out hfind hpriv hown
  case payment =>
    intro apis apiId api user led req rid out hfind hacc hquota h1 h2 h3
    refine callApi_paymentRequired user led req rid out hfind ?_ hquota ?_
    · rcases hacc with hpub | howner
      · simp [hpub]
      · simp [howner]
    · simp [User.isPremium, h1, h2, h3]
  case nevPay =>
    intro apis apiId api user led led' req rid out hfind hpriv hown hcontra
    rw [callApi_forbidden user led req rid out hfind hpriv hown] at hcontra
    simp at hcontra

/-- Witness for C4: each failure mode exercised at a concrete input — empty
store gives `notFound`; the private API called by a stranger gives
`forbidden` (never `paymentRequired`); the exhausted free-tier consumer gets
`paymentRequired`. -/
theorem C4_precondition_order_and_failure_modes_witness :
    callApi [] 1 freeUser emptyLedger getReq "w" ok200 =
      (emptyLedger, .error .notFound) ∧
    callApi [privApi] 1 freeUser emptyLedger getReq "w" ok200 =
      (emptyLedger, .error .forbidden) ∧
    callApi [api50] 1 freeUser twoCallLedger getReq "w" ok200 =
      (twoCallLedger, .error .paymentRequired) ∧
    callApi [privApi] 1 freeUser emptyLedger getReq "w" ok200 ≠
      (emptyLedger, .error .paymentRequired) :=
  ⟨C4_precondition_order_and_failure_modes.1 [] 1 freeUser emptyLedger getReq "w"
      ok200 (by intro a ha; simp at ha),
   C4_precondition_order_and_failure_modes.2.1 [privApi] 1 privApi freeUser
      emptyLedger getReq "w" ok200 rfl rfl (by decide),
   C4_precondition_order_and_failure_modes.2.2.1 [api50] 1 api50 freeUser
      twoCallLedger getReq "w" ok200 rfl (Or.inl rfl) (by decide) (by decide)
      (by decide) (by decide),
   C4_precondition_order_and_failure_modes.2.2.2 [privApi] 1 privApi freeUser
      emptyLedger emptyLedger getReq "w" ok200 rfl rfl (by decide)⟩

/-- C10: every error exit of the call operation leaves the persistent ledger
unchanged — no usage-counter change and no audit record is persisted,
including the lazily-created zero-valued counter pending in the session. -/
theorem C10_error_exits_leave_ledger_unchanged :
    ∀ (apis : List API) (apiId : Int) (user : User) (led : Ledger)
      (req : APICallRequest) (rid : String) (out : UpstreamOutcome)
      (led' : Ledger) (e : CallError),
      callApi apis apiId user led req rid out = (led', .error e) →
      led' = led := by
  intro apis apiId user led req rid out led' e h
  exact callApi_error_ledger h

/-- Witness for C10: the `paymentRequired` exit of the exhausted free-tier
consumer commits nothing. -/
theorem C10_error_exits_leave_ledger_unchanged_witness :
    (callApi [api50] 1 freeUser twoCallLedger getReq "w" ok200).1 =
      twoCallLedger :=
  C10_error_exits_leave_ledger_unchanged [api50] 1 freeUser twoCallLedger getReq
    "w" ok200 (callApi [api50] 1 freeUser twoCallLedger getReq "w" ok200).1
    .paymentRequired (by rfl)

/-- C3 counterexample: a timed-out call completes with a gateway-timeout
error and leaves the ledger unchanged, so it writes NO audit record — the
log list stays empty, refuting both "exactly one audit record per completed
call" and "an audit record is still written carrying a timeout marker". -/
theorem C3_counterexample_timeout_writes_no_audit_record :
    (callApi [api50] 1 builderUser emptyLedger getReq "t" .timeout).2 =
      .error .gatewayTimeout ∧
    (callApi [api50] 1 builderUser emptyLedger getReq "t" .timeout).1 =
      emptyLedger ∧
    ¬ ((callApi [api50] 1 builderUser emptyLedger getReq "t" .timeout).1.logs.length
        = 1) :=
  ⟨rfl, rfl, by decide⟩

/-- C3 (amended): a call whose upstream request receives a response produces
exactly one audit record; a timeout yields a gateway-timeout error with no
usage charged and NO audit record; a transport failure yields a bad-gateway
error with no usage charged and no audit record. -/
theorem C3_audit_record_only_on_received_response :
    (∀ (apis : List API) (apiId : Int) (api : API) (user : User) (led : Ledger)
        (req : APICallRequest) (rid : String) (sc : Int) (content : String)
        (lat : Int),
      findApi apis apiId = some api →
      (!api.isPublic && api.ownerId != user.id) = false →
      ((led.usage.getD (freshUsage user.id api.id)).callsThisMonth ≥
          api.freeCallsPerMonth && !user.isPremium) = false →
      (callApi apis apiId user led req rid (.response sc content lat)).1.logs.length
        = led.logs.length + 1) ∧
    (∀ (apis : List API) (apiId : Int) (api : API) (user : User) (led : Ledger)
        (req : APICallRequest) (rid : String),
      findApi apis apiId = some api →
      (!api.isPublic && api.ownerId != user.id) = false →
      ((led.usage.getD (freshUsage user.id api.id)).callsThisMonth ≥
          api.freeCallsPerMonth && !user.isPremium) = false →
      callApi apis apiId user led req rid .timeout = (led, .error .gatewayTimeout)) ∧
    (∀ (apis : List API) (apiId : Int) (api : API) (user : User) (led : Ledger)
        (req : APICallRequest) (rid : String) (msg : String),
      findApi apis apiId = some api →
      (!api.isPublic && api.ownerId != user.id) = false →
      ((led.usage.getD (freshUsage user.id api.id)).callsThisMonth ≥
          api.freeCallsPerMonth && !user.isPremium) = false →
      callApi apis apiId user led req rid (.requestError msg) =
        (led, .error .badGateway)) := by
  refine ⟨?succ, ?tout, ?terr⟩
  case succ =>
    intro apis apiId api user led req rid sc content lat hfind hacc hq
    rw [callApi_response_eq user led req rid sc content lat hfind hacc hq]
    simp
  case tout =>
    intro apis apiId api user led req rid hfind hacc hq
    exact callApi_timeout user led req rid hfind hacc hq
  case terr =>
    intro apis apiId api user led req rid msg hfind hacc hq
    exact callApi_requestError user led req rid msg hfind hacc hq

/-- Witness for the amended C3: success appends one record; timeout and
transport failure error out with the ledger untouched. -/
theorem C3_audit_record_only_on_received_response_witness :
    (callApi [api50] 1 builderUser emptyLedger getReq "s"
        (.response 200 "ok" 12)).1.logs.length = emptyLedger.logs.length + 1 ∧
    callApi [api50] 1 builderUser emptyLedger getReq "t" .timeout =
      (emptyLedger, .error .gatewayTimeout) ∧
    callApi [api50] 1 builderUser emptyLedger getReq "e" (.requestError "boom") =
      (emptyLedger, .error .badGateway) :=
  ⟨C3_audit_record_only_on_received_response.1 [api50] 1 api50 builderUser
      emptyLedger getReq "s" 200 "ok" 12 rfl (by decide) (by decide),
   C3_audit_record_only_on_received_response.2.1 [api50] 1 api50 builderUser
      emptyLedger getReq "t" rfl (by decide) (by decide),
   C3_audit_record_only_on_received_response.2.2 [api50] 1 api50 builderUser
      emptyLedger getReq "e" "boom" rfl (by decide) (by decide)⟩

/-- C5: any received upstream HTTP status — 4xx and 5xx included — is
treated as a successful proxy operation: the handler returns `.ok` carrying
the upstream status, the usage counters are incremented, one audit record is
appended, and the cost decision is a function of the quota position only —
two runs differing solely in the received status get the same cost and
free/paid flag. -/
theorem C5_any_received_status_is_success :
    ∀ (apis : List API) (apiId : Int) (api : API) (user : User) (led : Ledger)
      (req : APICallRequest) (rid : String) (sc : Int) (content : String)
      (lat : Int),
      findApi apis apiId = some api →
      (!api.isPublic && api.ownerId != user.id) = false →
      ((led.usage.getD (freshUsage user.id api.id)).callsThisMonth ≥
          api.freeCallsPerMonth && !user.isPremium) = false →
      ∃ resp : APICallResponse,
        (callApi apis apiId user led req rid (.response sc content lat)).2 =
          .ok resp ∧
        resp.statusCode = sc ∧
        resp.cost = (decideCost api
          (led.usage.getD (freshUsage user.id api.id)).callsThisMonth).1 ∧
        resp.wasFree = (decideCost api
          (led.usage.getD (freshUsage user.id api.id)).callsThisMonth).2 ∧
        (callApi apis apiId user led req rid (.response sc content lat)).1.usage =
          some ((led.usage.getD (freshUsage user.id api.id)).applyCall resp.cost) ∧
        (callApi apis apiId user led req rid (.response sc content lat)).1.logs.length
          = led.logs.length + 1 ∧
        (∀ (sc' : Int) (content' : String) (lat' : Int),
          (callApi apis apiId user led req rid (.response sc' content' lat')).2 =
            .ok { requestId := rid, statusCode := sc', responseTimeMs := lat'
                  cost := resp.cost, wasFree := resp.wasFree }) := by
  intro apis apiId api user led req rid sc content lat hfind hacc hq
  refine ⟨{ requestId := rid, statusCode := sc, responseTimeMs := lat
            cost := (decideCost api
              (led.usage.getD (freshUsage user.id api.id)).callsThisMonth).1
            wasFree := (decideCost api
              (led.usage.getD (freshUsage user.id api.id)).callsThisMonth).2 },
    ?_, rfl, rfl, rfl, ?_, ?_, ?_⟩
  · rw [callApi_response_eq user led req rid sc content lat hfind hacc hq]
  · rw [callApi_response_eq user led req rid sc content lat hfind hacc hq]
  · rw [callApi_response_eq user led req rid sc content lat hfind hacc hq]
    simp
  · intro sc' content' lat'
    rw [callApi_response_eq user led req rid sc' content' lat' hfind hacc hq]

/-- Witness for C5: a 500 upstream response is still proxied as a success
with cost 0 for an in-quota consumer. -/
theorem C5_any_received_status_is_success_witness :
    ∃ resp : APICallResponse,
      (callApi [api50] 1 builderUser emptyLedger getReq "w5"
          (.response 500 "err" 9)).2 = .ok resp ∧
      resp.statusCode = 500 ∧
      resp.cost = (decideCost api50
        (emptyLedger.usage.getD (freshUsage builderUser.id api50.id)).callsThisMonth).1 ∧
      resp.wasFree = (decideCost api50
        (emptyLedger.usage.getD (freshUsage builderUser.id api50.id)).callsThisMonth).2 ∧
      (callApi [api50] 1 builderUser emptyLedger getReq "w5"
          (.response 500 "err" 9)).1.usage =
        some ((emptyLedger.usage.getD
          (freshUsage builderUser.id api50.id)).applyCall resp.cost) ∧
      (callApi [api50] 1 builderUser emptyLedger getReq "w5"
          (.response 500 "err" 9)).1.logs.length = emptyLedger.logs.length + 1 ∧
      (∀ (sc' : Int) (content' : String) (lat' : Int),
        (callApi [api50] 1 builderUser emptyLedger getReq "w5"
            (.response sc' content' lat')).2 =
          .ok { requestId := "w5", statusCode := sc', responseTimeMs := lat'
                cost := resp.cost, wasFree := resp.wasFree }) :=
  C5_any_received_status_is_success [api50] 1 api50 builderUser emptyLedger
    getReq "w5" 500 "err" 9 rfl (by decide) (by decide)

/-- C6: a call that commits does the whole post-call effect as one unit —
both counters are incremented by exactly 1, the cost is added to both cost
fields, and the single appended audit record carries the same cost and
free/paid decision as the counter update together with the status code,
latency, byte count and the generated correlation id; every error exit
commits none of it. -/
theorem C6_committed_call_updates_counters_and_audit_as_unit :
    (∀ (apis : List API) (apiId : Int) (user : User) (led : Ledger)
        (req : APICallRequest) (rid : String) (out : UpstreamOutcome)
        (led' : Ledger) (resp : APICallResponse),
      callApi apis apiId user led req rid out = (led', .ok resp) →
      ∃ api sc content lat,
        findApi apis apiId = some api ∧
        out = .response sc content lat ∧
        led'.usage = some { led.usage.getD (freshUsage user.id api.id) with
          callsThisMonth :=
            (led.usage.getD (freshUsage user.id api.id)).callsThisMonth + 1
          callsTotal :=
            (led.usage.getD (freshUsage user.id api.id)).callsTotal + 1
          costThisMonth :=
            (led.usage.getD (freshUsage user.id api.id)).costThisMonth + resp.cost
          costTotal :=
            (led.usage.getD (freshUsage user.id api.id)).costTotal + resp.cost } ∧
        led'.logs = led.logs ++
          [{ userId := user.id, apiId := api.id, endpointPath := req.endpoint
             method := req.method, requestId := rid, statusCode := sc
             responseTimeMs := lat, responseSizeBytes := content.length
             cost := resp.cost, wasFree := resp.wasFree }] ∧
        resp.requestId = rid ∧ resp.statusCode = sc ∧ resp.responseTimeMs = lat) ∧
    (∀ (apis : List API) (apiId : Int) (user : User) (led : Ledger)
        (req : APICallRequest) (rid : String) (out : UpstreamOutcome)
        (led' : Ledger) (e : CallError),
      callApi apis apiId user led req rid out = (led', .error e) → led' = led) := by
  constructor
  · intro apis apiId user led req rid out led' resp hcall
    obtain ⟨api, sc, content, lat, hfind, hout, _, _, hled, hresp⟩ :=
      callApi_ok_inversion hcall
    subst hresp
    subst hled
    exact ⟨api, sc, content, lat, hfind, hout, rfl, rfl, rfl, rfl, rfl⟩
  · intro apis apiId user led req rid out led' e h
    exact callApi_error_ledger h

/-- Witness for C6: at the concrete first scenario call the committed ledger
carries exactly one appended audit record. -/
theorem C6_committed_call_updates_counters_and_audit_as_unit_witness :
    (callApi [api50] 1 builderUser emptyLedger getReq "w6" ok200).1.logs.length =
      emptyLedger.logs.length + 1 := by
  obtain ⟨api, sc, content, lat, hfind, hout, husage, hlogs, _, _, _⟩ :=
    C6_committed_call_updates_counters_and_audit_as_unit.1 [api50] 1 builderUser
      emptyLedger getReq "w6" ok200
      (callApi [api50] 1 builderUser emptyLedger getReq "w6" ok200).1
      { requestId := "w6", statusCode := 200, responseTimeMs := 12, cost := 0
        wasFree := true }
      (by rfl)
  rw [hlogs]
  simp

/-- C7: the usage-counter invariant `calls_total ≥ calls_this_month ≥ 0`
holds at all times — the lazily created row starts at zero, every committed
call increments both fields by exactly 1 (and every error exit leaves the
row untouched), so the invariant is preserved by every operation and along
every sequential trace from the empty ledger. -/
theorem C7_calls_total_ge_calls_this_month :
    (∀ uid aid : Int, usageRowInv (freshUsage uid aid) = true ∧
      (freshUsage uid aid).callsThisMonth = 0 ∧ (freshUsage uid aid).callsTotal = 0) ∧
    (∀ (apis : List API) (apiId : Int) (user : User) (led : Ledger)
        (req : APICallRequest) (rid : String) (out : UpstreamOutcome)
        (u u' : APIUsage),
      led.usage = some u →
      (callApi apis apiId user led req rid out).1.usage = some u' →
      u' = u ∨ (u'.callsThisMonth = u.callsThisMonth + 1 ∧
                u'.callsTotal = u.callsTotal + 1)) ∧
    (∀ (apis : List API) (apiId : Int) (user : User) (led : Ledger)
        (req : APICallRequest) (rid : String) (out : UpstreamOutcome),
      ledgerInv led = true →
      ledgerInv (callApi apis apiId user led req rid out).1 = true) ∧
    (∀ (apis : List API) (apiId : Int) (user : User) (events : List CallEvent),
      ledgerInv (runCalls apis apiId user emptyLedger events) = true) := by
  refine ⟨?zero, ?step, ?inv, ?trace⟩
  case zero =>
    intro uid aid
    exact ⟨rfl, rfl, rfl⟩
  case step =>
    intro apis apiId user led req rid out u u' h1 h2
    rcases callApi_fst_cases apis apiId user led req rid out with hsame |
      ⟨api, sc, content, lat, _, _, heq⟩
    · rw [hsame, h1] at h2
      injection h2 with h2'
      exact Or.inl h2'.symm
    · rw [heq] at h2
      simp only [h1, Option.getD_some] at h2
      injection h2 with h2'
      cases h2'
      exact Or.inr ⟨rfl, rfl⟩
  case inv =>
    intro apis apiId user led req rid out h
    exact ledgerInv_step apis apiId user led req rid out h
  case trace =>
    intro apis apiId user events
    exact ledgerInv_runCalls apis apiId user events emptyLedger rfl

/-- Witness for C7: one concrete committed call preserves the invariant. -/
theorem C7_calls_total_ge_calls_this_month_witness :
    ledgerInv (callApi [api50] 1 builderUser emptyLedger getReq "w7" ok200).1 =
      true :=
  C7_calls_total_ge_calls_this_month.2.2.1 [api50] 1 builderUser emptyLedger
    getReq "w7" ok200 rfl

/-- C8: the tier policy is monotone across `free < builder < pro <
enterprise` — for every pair of tiers the higher-paid tier has a
rate limit at least as large and can publish in every situation the
lower tier can — and the enterprise publish quota is unlimited (the branch
returns `True` unconditionally, a sentinel rather than any numeric bound). -/
theorem C8_tier_policy_monotone :
    (∀ (i j : Int) (m n : Nat),
      User.getRateLimit ⟨i, "free", m⟩ ≤ User.getRateLimit ⟨j, "builder", n⟩ ∧
      User.getRateLimit ⟨i, "free", m⟩ ≤ User.getRateLimit ⟨j, "pro", n⟩ ∧
      User.getRateLimit ⟨i, "free", m⟩ ≤ User.getRateLimit ⟨j, "enterprise", n⟩ ∧
      User.getRateLimit ⟨i, "builder", m⟩ ≤ User.getRateLimit ⟨j, "pro", n⟩ ∧
      User.getRateLimit ⟨i, "builder", m⟩ ≤ User.getRateLimit ⟨j, "enterprise", n⟩ ∧
      User.getRateLimit ⟨i, "pro", m⟩ ≤ User.getRateLimit ⟨j, "enterprise", n⟩) ∧
    (∀ (i j : Int) (n : Nat),
      (User.canPublishApis ⟨i, "free", n⟩ = true →
        User.canPublishApis ⟨j, "builder", n⟩ = true) ∧
      (User.canPublishApis ⟨i, "free", n⟩ = true →
        User.canPublishApis ⟨j, "pro", n⟩ = true) ∧
      (User.canPublishApis ⟨i, "free", n⟩ = true →
        User.canPublishApis ⟨j, "enterprise", n⟩ = true) ∧
      (User.canPublishApis ⟨i, "builder", n⟩ = true →
        User.canPublishApis ⟨j, "pro", n⟩ = true) ∧
      (User.canPublishApis ⟨i, "builder", n⟩ = true →
        User.canPublishApis ⟨j, "enterprise", n⟩ = true) ∧
      (User.canPublishApis ⟨i, "pro", n⟩ = true →
        User.canPublishApis ⟨j, "enterprise", n⟩ = true)) ∧
    (∀ (i : Int) (n : Nat), User.canPublishApis ⟨i, "enterprise", n⟩ = true) := by
  refine ⟨?rate, ?pub, ?ent⟩
  case rate =>
    intro i j m n
    exact ⟨show (60 : Int) ≤ 300 by decide, show (60 : Int) ≤ 1000 by decide,
      show (60 : Int) ≤ 5000 by decide, show (300 : Int) ≤ 1000 by decide,
      show (300 : Int) ≤ 5000 by decide, show (1000 : Int) ≤ 5000 by decide⟩
  case pub =>
    intro i j n
    refine ⟨?_, ?_, fun _ => rfl, ?_, fun _ => rfl, fun _ => rfl⟩
    · intro h
      have h' : n < 1 := by simpa [User.canPublishApis] using h
      exact decide_eq_true (show n < 3 by omega)
    · intro h
      have h' : n < 1 := by simpa [User.canPublishApis] using h
      exact decide_eq_true (show n < 10 by omega)
    · intro h
      have h' : n < 3 := by simpa [User.canPublishApis] using h
      exact decide_eq_true (show n < 10 by omega)
  case ent =>
    intro i n
    rfl

/-- Witness for C8: a free-tier account with no APIs can publish, hence so
can a builder account with the same count. -/
theorem C8_tier_policy_monotone_witness :
    User.canPublishApis ⟨0, "builder", 0⟩ = true :=
  (C8_tier_policy_monotone.2.1 0 0 0).1 (by decide)

/-- C9 counterexample: with the `api_key` scheme (not `none`), two
invocations that differ only in a caller-supplied header produce different
upstream requests — the caller's own headers ARE echoed upstream, refuting
"the upstream request is identical when the scheme is not none". -/
theorem C9_counterexample_caller_headers_echoed :
    apiKeyApi.authType = "api_key" ∧
    reqA.endpoint = reqB.endpoint ∧
    reqA.method = reqB.method ∧
    reqA.params = reqB.params ∧
    reqA.data = reqB.data ∧
    reqA.headers ≠ reqB.headers ∧
    buildUpstreamRequest apiKeyApi reqA ≠ buildUpstreamRequest apiKeyApi reqB :=
  ⟨rfl, rfl, rfl, rfl, rfl, by decide, by decide⟩

/-- C9 (amended): when the scheme is `api_key` with a truthy auth config the
configured header name (default `Authorization`) is set to the configured
key value, overriding any caller-supplied value for that one header; every
other caller-supplied header is forwarded upstream unchanged, and for every
other scheme (or a missing config) the caller's headers pass through
entirely. -/
theorem C9_api_key_header_injection :
    (∀ (api : API) (req : APICallRequest) (cfg : AuthConfig),
      api.authType = "api_key" → api.authConfig = some cfg →
      headerGet (upstreamHeaders api req) (cfg.headerName.getD "Authorization") =
        some cfg.apiKey ∧
      (∀ k : String, k ≠ cfg.headerName.getD "Authorization" →
        headerGet (upstreamHeaders api req) k = headerGet (callerHeaders req) k)) ∧
    (∀ (api : API) (req : APICallRequest), api.authType ≠ "api_key" →
      upstreamHeaders api req = callerHeaders req) ∧
    (∀ (api : API) (req : APICallRequest), api.authConfig = none →
      upstreamHeaders api req = callerHeaders req) := by
  refine ⟨?inj, ?other, ?nocfg⟩
  case inj =>
    intro api req cfg htype hcfg
    unfold upstreamHeaders
    rw [htype, hcfg]
    simp only [beq_self_eq_true, if_pos]
    exact ⟨headerGet_dictSet_same _ _ _, fun k hk => headerGet_dictSet_other hk⟩
  case other =>
    intro api req htype
    unfold upstreamHeaders
    rw [if_neg (by simpa using htype)]
  case nocfg =>
    intro api req hcfg
    unfold upstreamHeaders
    rw [hcfg]
    by_cases h : (api.authType == "api_key") = true
    · rw [if_pos h]
    · rw [if_neg h]

/-- Witness for the amended C9: the configured `X-API-Key` header is set to
the configured key, and the caller's own header survives untouched. -/
theorem C9_api_key_header_injection_witness :
    headerGet (upstreamHeaders apiKeyApi reqA) "X-API-Key" = some (some "sek") ∧
    headerGet (upstreamHeaders apiKeyApi reqA) "X-Caller-Token" =
      headerGet (callerHeaders reqA) "X-Caller-Token" := by
  have h := C9_api_key_header_injection.1 apiKeyApi reqA
    ⟨some "X-API-Key", some "sek"⟩ rfl rfl
  exact ⟨h.1, h.2 "X-Caller-Token" (by decide)⟩

/-- C2: at the failing input — a consumer one call below the free quota
firing two concurrent calls — the racy schedule in which both sessions read
the usage row before either commits makes BOTH calls free and loses one
increment: the read-check-increment sequence of `call_api` is not
serialized, contradicting the claimed exactly-one-free property (the spec
itself flags this as a latent bug of the code). -/
theorem C2_unserialized_race_double_free :
    api50.freeCallsPerMonth = 2 ∧
    initTwo.shared.usage.map APIUsage.callsThisMonth = some 1 ∧
    (runTwo api50 builderUser getReq "ra" "rb" 200 "ok" 12 initTwo
      racySchedule).localA.result = some (0, true) ∧
    (runTwo api50 builderUser getReq "ra" "rb" 200 "ok" 12 initTwo
      racySchedule).localB.result = some (0, true) ∧
    (runTwo api50 builderUser getReq "ra" "rb" 200 "ok" 12 initTwo
      racySchedule).shared.usage.map APIUsage.callsThisMonth = some 2 ∧
    (runTwo api50 builderUser getReq "ra" "rb" 200 "ok" 12 initTwo
      racySchedule).shared.logs.length = 2 :=
  ⟨rfl, rfl, rfl, rfl, rfl, rfl⟩

end LedgrAPI
